import Mathlib

/-
Shallow embedding of the OWUI Toolset V2 pipeline function, the single source
file of this repository: a streaming relay that forwards a chat request to a
toolset server and relays the SSE response stream to a sink callback with
time-windowed token batching.

Modelling conventions:
* JSON values are the inductive type Json; the Python json.loads call is a
  parameter jparse of the relay functions, returning none exactly when the
  standard library would raise json.JSONDecodeError on that payload.
* Monotonic clock readings are natural numbers in milliseconds; each stream
  line carries the clock value observed while it is processed; the 0.05 second
  flush interval becomes 50.
* The sink callback, which may be absent, is the boolean em; sink invocations
  are collected in an event list in emission order.
* Python runtime exceptions escaping the per-frame handler are PyErr values
  propagated in Except; str of an exception object is abstracted by pyStr.
-/

inductive Json where
  | null : Json
  | bool (b : Bool) : Json
  | num (n : Int) : Json
  | str (s : String) : Json
  | arr (elems : List Json) : Json
  | obj (fields : List (String × Json)) : Json

/-- Python truthiness of a JSON value. -/
def Json.truthy : Json → Bool
  | .null => false
  | .bool b => b
  | .num n => n != 0
  | .str s => s != ""
  | .arr xs => !xs.isEmpty
  | .obj fs => !fs.isEmpty

/-- First binding of a key in the field list of a JSON object. -/
def jsonLookup : List (String × Json) → String → Option Json
  | [], _ => none
  | (k, v) :: rest, key => if k = key then some v else jsonLookup rest key

/-- Python runtime exceptions that can escape the per-frame try block, which
only catches json.JSONDecodeError. -/
inductive PyErr where
  | typeError : PyErr
  | attributeError : PyErr
  | keyError : PyErr
  | indexError : PyErr

/-- Abstraction of Python str applied to an exception object. -/
def pyStr : PyErr → String
  | .typeError => "TypeError"
  | .attributeError => "AttributeError"
  | .keyError => "KeyError"
  | .indexError => "IndexError"

/-- Python d.get(key, dflt): the bound value or the default on a dict,
AttributeError when the receiver is not a dict. -/
def Json.getD (j : Json) (key : String) (dflt : Json) : Except PyErr Json :=
  match j with
  | .obj fs => .ok ((jsonLookup fs key).getD dflt)
  | _ => .error .attributeError

/-- Python x[0]: first element of a list, first character of a string,
KeyError on a dict without that key, TypeError on non-subscriptable values. -/
def Json.index0 : Json → Except PyErr Json
  | .arr (x :: _) => .ok x
  | .arr [] => .error .indexError
  | .str s =>
    match s.toList with
    | [] => .error .indexError
    | c :: _ => .ok (.str (String.mk [c]))
  | .obj _ => .error .keyError
  | .null => .error .typeError
  | .bool _ => .error .typeError
  | .num _ => .error .typeError

/-- Python whitespace test used by str.strip with no argument, restricted to
the ASCII whitespace characters. -/
def pyIsSpace (c : Char) : Bool :=
  c == ' ' || c == '\t' || c == '\n' || c == '\r' || c == '\x0b' || c == '\x0c'

/-- Python str.strip with no argument: remove leading and trailing
whitespace. -/
def pyStrip (s : String) : String :=
  String.mk (((s.toList.dropWhile pyIsSpace).reverse.dropWhile pyIsSpace).reverse)

/-- Python str.startswith for one string argument. -/
def pyStartsWith (s p : String) : Bool :=
  p.toList.isPrefixOf s.toList

/-- Python slicing s[n:], counted in characters. -/
def pyDrop (s : String) (n : Nat) : String :=
  String.mk (s.toList.drop n)

/-- Sink events delivered to the host event emitter callback. -/
inductive SinkEvent where
  | message (content : String) : SinkEvent
  | status (data : Json) : SinkEvent
  | citation (data : Json) : SinkEvent

/-- Relay-local parse state for one stream: the current SSE event tag, the
token batching buffer, and the clock value of the last flush. -/
structure ParseState where
  current_event : Option String
  token_buffer : String
  last_flush : Nat

/-- Flush every 50 ms (the Python constant is 0.05 seconds). -/
def FLUSH_INTERVAL : Nat := 50

/-- The flush_buffer closure (lines 201 to 206): emit the accumulated text as
one message event when the buffer is non-empty and a sink callback is
registered, clearing the buffer and resetting the flush clock; otherwise do
nothing. -/
def flush_buffer (em : Bool) (now : Nat) (st : ParseState) :
    ParseState × List SinkEvent :=
  if st.token_buffer ≠ "" ∧ em = true then
    ({ st with token_buffer := "", last_flush := now }, [.message st.token_buffer])
  else (st, [])

/-- Outcome of processing one stream line: continue with a new state, break
out of the loop after the DONE sentinel, or a Python exception escaping the
loop; each carries the sink events emitted while handling the line. -/
inductive StepResult where
  | next (st : ParseState) (evs : List SinkEvent) : StepResult
  | done (st : ParseState) (evs : List SinkEvent) : StepResult
  | raised (e : PyErr) (evs : List SinkEvent) : StepResult

/-- Dispatch on a successfully parsed data payload (lines 222 to 234): branch
on the current event tag, emit status or citation events after a forced flush,
batch token content with the 50 ms window, and clear the tag; shape errors in
a well-formed payload raise past the per-frame handler. -/
def handleParsed (em : Bool) (st : ParseState) (data : Json) (now : Nat) :
    StepResult :=
  if st.current_event = some "status" ∧ em = true then
    match data.getD "data" (.obj []) with
    | .error e => .raised e (flush_buffer em now st).2
    | .ok d =>
      .next { (flush_buffer em now st).1 with current_event := none }
        ((flush_buffer em now st).2 ++ [.status d])
  else if st.current_event = some "source" ∧ em = true then
    match data.getD "data" (.obj []) with
    | .error e => .raised e (flush_buffer em now st).2
    | .ok d =>
      .next { (flush_buffer em now st).1 with current_event := none }
        ((flush_buffer em now st).2 ++ [.citation d])
  else
    match data.getD "choices" .null with
    | .error e => .raised e []
    | .ok choices =>
      if choices.truthy = true ∧ em = true then
        match choices.index0 with
        | .error e => .raised e []
        | .ok c0 =>
          match c0.getD "delta" (.obj []) with
          | .error e => .raised e []
          | .ok delta =>
            match delta.getD "content" (.str "") with
            | .error e => .raised e []
            | .ok content =>
              match content with
              | .str s =>
                if s ≠ "" then
                  let st1 := { st with token_buffer := st.token_buffer ++ s }
                  if now - st1.last_flush ≥ FLUSH_INTERVAL then
                    .next { (flush_buffer em now st1).1 with current_event := none }
                      (flush_buffer em now st1).2
                  else
                    .next { st1 with current_event := none } []
                else .next { st with current_event := none } []
              | c =>
                if c.truthy = true then .raised .typeError []
                else .next { st with current_event := none } []
      else .next { st with current_event := none } []

/-- The try block handling the payload of one data line (lines 220 to 236):
parse it as JSON and dispatch, where a failed parse only clears the tag. -/
def handleData (jparse : String → Option Json) (em : Bool)
    (st : ParseState) (data_str : String) (now : Nat) : StepResult :=
  match jparse data_str with
  | none => .next { st with current_event := none } []
  | some data => handleParsed em st data now

/-- Processing of one line of the SSE stream (the body of the async-for loop,
lines 208 to 236): strip it, skip it when empty, record an event tag, handle a
data line, and ignore every other line. -/
def processLine (jparse : String → Option Json) (em : Bool)
    (st : ParseState) (rawLine : String) (now : Nat) : StepResult :=
  let line := pyStrip rawLine
  if line = "" then .next st []
  else if pyStartsWith line "event: " then
    .next { st with current_event := some (pyStrip (pyDrop line 7)) } []
  else if pyStartsWith line "data: " then
    let data_str := pyDrop line 6
    if data_str = "[DONE]" then
      let fr := flush_buffer em now st
      .done fr.1 fr.2
    else handleData jparse em st data_str now
  else .next st []

/-- Result of the stream loop: either the loop ended (recording whether the
DONE sentinel caused the break) or an exception escaped it; each carries all
sink events emitted by the loop in order. -/
inductive LoopResult where
  | finished (st : ParseState) (evs : List SinkEvent) (sawDone : Bool) : LoopResult
  | raised (e : PyErr) (evs : List SinkEvent) : LoopResult

/-- The async-for loop over the response lines, each paired with the clock
value observed while it is processed. -/
def runLines (jparse : String → Option Json) (em : Bool) :
    ParseState → List (String × Nat) → LoopResult
  | st, [] => .finished st [] false
  | st, (l, t) :: rest =>
    match processLine jparse em st l t with
    | .next st1 evs =>
      match runLines jparse em st1 rest with
      | .finished st2 evs2 sawDone => .finished st2 (evs ++ evs2) sawDone
      | .raised e evs2 => .raised e (evs ++ evs2)
    | .done st1 evs => .finished st1 evs true
    | .raised e evs => .raised e evs

/-- Stream consumption inside the try block: the initial parse state (tag
None, empty buffer, last_flush read at t0), the loop, and the final flush
after the loop (line 239), which is skipped when an exception escapes. -/
def streamBody (jparse : String → Option Json) (em : Bool)
    (lines : List (String × Nat)) (t0 tEnd : Nat) :
    List SinkEvent × Except PyErr Unit :=
  match runLines jparse em ⟨none, "", t0⟩ lines with
  | .finished st evs _ => (evs ++ (flush_buffer em tEnd st).2, Except.ok ())
  | .raised e evs => (evs, Except.error e)

/-- The two valve fields the relay core consults for preflight; the remaining
valves only shape the outbound payload, which the relay never reads back. -/
structure Valves where
  TOOLSET_API_URL : String
  TOOLSET_API_KEY : String

/-- Timeout phases of the httpx client; each raises a subclass of the one
httpx.TimeoutException class caught at line 241. -/
inductive TimeoutPhase where
  | connect : TimeoutPhase
  | read : TimeoutPhase
  | write : TimeoutPhase
  | pool : TimeoutPhase

/-- The httpx.Timeout configuration of line 180, in seconds: the four phases
are independently configured constants. -/
structure TimeoutCfg where
  connect : Nat
  read : Nat
  write : Nat
  pool : Nat

/-- Timeout values passed to httpx.Timeout at line 180. -/
def timeout_config : TimeoutCfg := ⟨30, 600, 60, 30⟩

/-- Behaviour of the transport for one invocation: one of the classified
exceptions, some other exception, or a successful 2xx response whose body
yields the given timed lines (tStart is the clock when last_flush is
initialised at line 198, tEnd the clock at the final flush). -/
inductive TransportOutcome where
  | timeout (phase : TimeoutPhase) : TransportOutcome
  | connectError : TransportOutcome
  | httpStatus (code : Nat) : TransportOutcome
  | otherFailure (msg : String) : TransportOutcome
  | stream (lines : List (String × Nat)) (tStart tEnd : Nat) : TransportOutcome

/-- Observable outcome of one pipe invocation: the returned string, the sink
events emitted, and how many network requests were attempted. -/
structure PipeRun where
  result : String
  events : List SinkEvent
  transport_calls : Nat

/-- The pipe method (lines 123 to 248): configuration preflight before any
network call, then one request whose outcome is either relayed or classified
by the except clauses at lines 241 to 248. -/
def pipe (v : Valves) (jparse : String → Option Json) (em : Bool)
    (tr : TransportOutcome) : PipeRun :=
  if v.TOOLSET_API_URL = "" then ⟨"Error: TOOLSET_API_URL not configured", [], 0⟩
  else if v.TOOLSET_API_KEY = "" then ⟨"Error: TOOLSET_API_KEY not configured", [], 0⟩
  else
    match tr with
    | .timeout _ => ⟨"Error: Request timed out", [], 1⟩
    | .connectError => ⟨"Error: Could not connect to " ++ v.TOOLSET_API_URL, [], 1⟩
    | .httpStatus code => ⟨"Error: HTTP " ++ toString code, [], 1⟩
    | .otherFailure msg => ⟨"Error: " ++ msg, [], 1⟩
    | .stream lines t0 tEnd =>
      match streamBody jparse em lines t0 tEnd with
      | (evs, Except.ok _) => ⟨"", evs, 1⟩
      | (evs, Except.error e) => ⟨"Error: " ++ pyStr e, evs, 1⟩

/-- Payload of a token frame carrying the content He. -/
def heData : String := "\x7b\"choices\":[\x7b\"delta\":\x7b\"content\":\"He\"\x7d\x7d]\x7d"

/-- Parsed JSON of the He token frame. -/
def heJson : Json :=
  .obj [("choices", .arr [.obj [("delta", .obj [("content", .str "He")])]])]

/-- Payload of a token frame carrying the content llo. -/
def lloData : String := "\x7b\"choices\":[\x7b\"delta\":\x7b\"content\":\"llo\"\x7d\x7d]\x7d"

/-- Parsed JSON of the llo token frame. -/
def lloJson : Json :=
  .obj [("choices", .arr [.obj [("delta", .obj [("content", .str "llo")])]])]

/-- Payload of a status frame with phase searching. -/
def statusData : String := "\x7b\"data\":\x7b\"phase\":\"searching\"\x7d\x7d"

/-- Parsed JSON of the status frame. -/
def statusJson : Json := .obj [("data", .obj [("phase", .str "searching")])]

/-- Payload that is valid JSON but ill-shaped: its choices field is the
boolean true, which is truthy yet not subscriptable. -/
def badChoicesData : String := "\x7b\"choices\":true\x7d"

/-- Parsed JSON of the ill-shaped payload. -/
def badChoicesJson : Json := .obj [("choices", .bool true)]

/-- The He token frame as a stream line. -/
def heLine : String := "data: " ++ heData

/-- The llo token frame as a stream line. -/
def lloLine : String := "data: " ++ lloData

/-- The terminating sentinel line. -/
def doneLine : String := "data: [DONE]"

/-- Fragment of the behaviour of Python json.loads, restricted to the concrete
payloads used in the witnesses; it agrees with JSON semantics on these inputs
and fails on everything else, in particular on the malformed payloads. -/
def sampleParse : String → Option Json := fun s =>
  if s = heData then some heJson
  else if s = lloData then some lloJson
  else if s = statusData then some statusJson
  else if s = badChoicesData then some badChoicesJson
  else none

/-- A successfully parsed data payload is handled by the parsed dispatch. -/
theorem handleData_eq_parsed (jparse : String → Option Json) (em : Bool)
    (st : ParseState) (ds : String) (j : Json) (now : Nat)
    (hj : jparse ds = some j) :
    handleData jparse em st ds now = handleParsed em st j now := by
  unfold handleData
  rw [hj]

/-- With valid configuration, the relay outcome is determined by the stream
body consumption. -/
theorem pipe_stream_eq (v : Valves) (jparse : String → Option Json) (em : Bool)
    (lines : List (String × Nat)) (t0 tEnd : Nat)
    (hu : v.TOOLSET_API_URL ≠ "") (hk : v.TOOLSET_API_KEY ≠ "") :
    pipe v jparse em (.stream lines t0 tEnd) =
      match streamBody jparse em lines t0 tEnd with
      | (evs, Except.ok _) => ⟨"", evs, 1⟩
      | (evs, Except.error e) => ⟨"Error: " ++ pyStr e, evs, 1⟩ := by
  unfold pipe
  rw [if_neg hu, if_neg hk]

/-- C5: for every configuration, sink registration, parser behaviour and
transport outcome, the relay returns exactly one terminal string value, which
is either the empty success string or a descriptive error string; the
embedding being a total function, no exception crosses the relay boundary. -/
theorem C5_single_outcome (v : Valves) (jparse : String → Option Json) (em : Bool)
    (tr : TransportOutcome) :
    (pipe v jparse em tr).result = "" ∨
      ∃ s : String, (pipe v jparse em tr).result = "Error: " ++ s := by
  by_cases hu : v.TOOLSET_API_URL = ""
  · have h : pipe v jparse em tr = ⟨"Error: TOOLSET_API_URL not configured", [], 0⟩ := by
      unfold pipe
      rw [if_pos hu]
    rw [h]
    exact Or.inr ⟨"TOOLSET_API_URL not configured", rfl⟩
  by_cases hk : v.TOOLSET_API_KEY = ""
  · have h : pipe v jparse em tr = ⟨"Error: TOOLSET_API_KEY not configured", [], 0⟩ := by
      unfold pipe
      rw [if_neg hu, if_pos hk]
    rw [h]
    exact Or.inr ⟨"TOOLSET_API_KEY not configured", rfl⟩
  cases tr with
  | timeout ph =>
    have h : pipe v jparse em (.timeout ph) = ⟨"Error: Request timed out", [], 1⟩ := by
      unfold pipe
      rw [if_neg hu, if_neg hk]
    rw [h]
    exact Or.inr ⟨"Request timed out", rfl⟩
  | connectError =>
    have h : pipe v jparse em .connectError =
        ⟨"Error: Could not connect to " ++ v.TOOLSET_API_URL, [], 1⟩ := by
      unfold pipe
      rw [if_neg hu, if_neg hk]
    rw [h]
    exact Or.inr ⟨"Could not connect to " ++ v.TOOLSET_API_URL,
      (String.append_assoc "Error: " "Could not connect to " v.TOOLSET_API_URL).symm⟩
  | httpStatus code =>
    have h : pipe v jparse em (.httpStatus code) =
        ⟨"Error: HTTP " ++ toString code, [], 1⟩ := by
      unfold pipe
      rw [if_neg hu, if_neg hk]
    rw [h]
    exact Or.inr ⟨"HTTP " ++ toString code,
      (String.append_assoc "Error: " "HTTP " (toString code)).symm⟩
  | otherFailure msg =>
    have h : pipe v jparse em (.otherFailure msg) = ⟨"Error: " ++ msg, [], 1⟩ := by
      unfold pipe
      rw [if_neg hu, if_neg hk]
    rw [h]
    exact Or.inr ⟨msg, rfl⟩
  | stream lines t0 tEnd =>
    rw [pipe_stream_eq v jparse em lines t0 tEnd hu hk]
    rcases hsb : streamBody jparse em lines t0 tEnd with ⟨evs, r⟩
    cases r with
    | ok u => exact Or.inl rfl
    | error e => exact Or.inr ⟨pyStr e, rfl⟩

/-- C6: flushing is idempotent: a second flush right after a flush emits
nothing, the two calls together emit at most one message event, and a flush
on an empty buffer emits nothing and leaves the whole state, in particular
last_flush, unchanged (the final forced flush included, since the code uses
the same closure there). -/
theorem C6_flush_idempotent (em : Bool) (st : ParseState) (t1 t2 : Nat) :
    (flush_buffer em t2 (flush_buffer em t1 st).1).2 = [] ∧
    ((flush_buffer em t1 st).2 ++ (flush_buffer em t2 (flush_buffer em t1 st).1).2).length ≤ 1 ∧
    (st.token_buffer = "" → flush_buffer em t1 st = (st, [])) := by
  by_cases hb : st.token_buffer ≠ "" ∧ em = true
  · refine ⟨?_, ?_, fun h => absurd h hb.1⟩
    · simp [flush_buffer, hb]
    · simp [flush_buffer, hb]
  · refine ⟨?_, ?_, fun h => ?_⟩
    · simp [flush_buffer, hb]
    · simp [flush_buffer, hb]
    · simp [flush_buffer, hb]

/-- C6 witness: a flush on an empty buffer is the identity and emits no
event. -/
theorem C6_flush_idempotent_witness :
    flush_buffer true 7 ⟨none, "", 3⟩ = (⟨none, "", 3⟩, []) :=
  (C6_flush_idempotent true ⟨none, "", 3⟩ 7 9).2.2 rfl

/-- C7: an empty endpoint URL or an empty credential makes the relay return a
configuration error immediately, with zero transport invocations, whatever
the transport would have done. -/
theorem C7_config_preflight (v : Valves) (jparse : String → Option Json) (em : Bool)
    (tr : TransportOutcome)
    (h : v.TOOLSET_API_URL = "" ∨ v.TOOLSET_API_KEY = "") :
    ((pipe v jparse em tr).result = "Error: TOOLSET_API_URL not configured" ∨
      (pipe v jparse em tr).result = "Error: TOOLSET_API_KEY not configured") ∧
    (pipe v jparse em tr).transport_calls = 0 := by
  unfold pipe
  by_cases hu : v.TOOLSET_API_URL = ""
  · rw [if_pos hu]
    exact ⟨Or.inl rfl, rfl⟩
  · have hk : v.TOOLSET_API_KEY = "" := h.resolve_left hu
    rw [if_neg hu, if_pos hk]
    exact ⟨Or.inr rfl, rfl⟩

/-- C7 witness: with an empty URL and a transport that would have connected,
the relay reports the configuration error without any network call. -/
theorem C7_config_preflight_witness :
    ((pipe ⟨"", "secret"⟩ sampleParse true .connectError).result =
        "Error: TOOLSET_API_URL not configured" ∨
      (pipe ⟨"", "secret"⟩ sampleParse true .connectError).result =
        "Error: TOOLSET_API_KEY not configured") ∧
    (pipe ⟨"", "secret"⟩ sampleParse true .connectError).transport_calls = 0 :=
  C7_config_preflight ⟨"", "secret"⟩ sampleParse true .connectError (Or.inl rfl)

/-- C8 counterexample: a connect timeout, a read timeout and a write timeout
all produce the very same relay outcome, the fixed string reporting a timed
out request, so the three phases do not produce distinct failure values. -/
theorem C8_timeout_counterexample :
    pipe ⟨"http://localhost:3000", "secret"⟩ sampleParse true (.timeout .connect) =
      pipe ⟨"http://localhost:3000", "secret"⟩ sampleParse true (.timeout .read) ∧
    pipe ⟨"http://localhost:3000", "secret"⟩ sampleParse true (.timeout .read) =
      pipe ⟨"http://localhost:3000", "secret"⟩ sampleParse true (.timeout .write) ∧
    (pipe ⟨"http://localhost:3000", "secret"⟩ sampleParse true (.timeout .connect)).result =
      "Error: Request timed out" :=
  ⟨rfl, rfl, rfl⟩

/-- C8 amended: the four timeout phases are independently configurable, but
exceeding any of them is reported with one and the same timeout failure
value, the request timed out string, rather than a per-phase distinct one. -/
theorem C8_timeout_uniform (v : Valves) (jparse : String → Option Json) (em : Bool)
    (ph : TimeoutPhase)
    (hu : v.TOOLSET_API_URL ≠ "") (hk : v.TOOLSET_API_KEY ≠ "") :
    pipe v jparse em (.timeout ph) = ⟨"Error: Request timed out", [], 1⟩ ∧
    timeout_config = ⟨30, 600, 60, 30⟩ := by
  constructor
  · unfold pipe
    rw [if_neg hu, if_neg hk]
  · rfl

/-- C8 amended witness: a read timeout at a valid configuration yields the
uniform timeout outcome. -/
theorem C8_timeout_uniform_witness :
    pipe ⟨"http://localhost:3000", "secret"⟩ sampleParse true (.timeout .read) =
      ⟨"Error: Request timed out", [], 1⟩ ∧
    timeout_config = ⟨30, 600, 60, 30⟩ :=
  C8_timeout_uniform ⟨"http://localhost:3000", "secret"⟩ sampleParse true .read
    (by decide) (by decide)

/-- C9: a line that, once stripped, starts with neither the event nor the
data marker (empty lines included) leaves the whole parse state unchanged and
emits no sink event. -/
theorem C9_other_lines_ignored (jparse : String → Option Json) (em : Bool)
    (st : ParseState) (ℓ : String) (now : Nat)
    (h1 : pyStartsWith (pyStrip ℓ) "event: " = false)
    (h2 : pyStartsWith (pyStrip ℓ) "data: " = false) :
    processLine jparse em st ℓ now = .next st [] := by
  unfold processLine
  by_cases he : pyStrip ℓ = ""
  · rw [if_pos he]
  · rw [if_neg he, h1, h2]
    simp

/-- C9 witness: an SSE comment line is ignored without touching the state. -/
theorem C9_other_lines_ignored_witness :
    processLine sampleParse true ⟨some "status", "buf", 4⟩ ": keep-alive" 9 =
      .next ⟨some "status", "buf", 4⟩ [] :=
  C9_other_lines_ignored sampleParse true ⟨some "status", "buf", 4⟩ ": keep-alive" 9 rfl rfl

/-- C1: a stream whose data lines carry the contents He and llo, both
processed within 50 ms of the last flush, followed by the DONE sentinel, with
no status or source tag active and the sink callback registered, makes the
relay emit exactly one message event with content Hello: the two token frames
are collapsed into a single emission rather than emitted separately. -/
theorem C1_batching_collapses (v : Valves) (jparse : String → Option Json)
    (t0 t1 t2 t3 tEnd : Nat)
    (hu : v.TOOLSET_API_URL ≠ "") (hk : v.TOOLSET_API_KEY ≠ "")
    (hHe : jparse heData = some heJson) (hLlo : jparse lloData = some lloJson)
    (h1 : t1 - t0 < 50) (h2 : t2 - t0 < 50) :
    pipe v jparse true (.stream [(heLine, t1), (lloLine, t2), (doneLine, t3)] t0 tEnd) =
      ⟨"", [.message "Hello"], 1⟩ := by
  have s1 : processLine jparse true ⟨none, "", t0⟩ heLine t1 =
      .next ⟨none, "He", t0⟩ [] := by
    have e : processLine jparse true ⟨none, "", t0⟩ heLine t1 =
        handleData jparse true ⟨none, "", t0⟩ heData t1 := rfl
    rw [e, handleData_eq_parsed jparse true ⟨none, "", t0⟩ heData heJson t1 hHe]
    have hn : ¬ (t1 - t0 ≥ 50) := by omega
    unfold handleParsed
    simp [Json.getD, jsonLookup, Json.truthy, Json.index0, FLUSH_INTERVAL,
      flush_buffer, hn, heJson]
  have s2 : processLine jparse true ⟨none, "He", t0⟩ lloLine t2 =
      .next ⟨none, "Hello", t0⟩ [] := by
    have e : processLine jparse true ⟨none, "He", t0⟩ lloLine t2 =
        handleData jparse true ⟨none, "He", t0⟩ lloData t2 := rfl
    rw [e, handleData_eq_parsed jparse true ⟨none, "He", t0⟩ lloData lloJson t2 hLlo]
    have hn : ¬ (t2 - t0 ≥ 50) := by omega
    unfold handleParsed
    simp [Json.getD, jsonLookup, Json.truthy, Json.index0, FLUSH_INTERVAL,
      flush_buffer, hn, lloJson]
  have s3 : processLine jparse true ⟨none, "Hello", t0⟩ doneLine t3 =
      .done ⟨none, "", t3⟩ [.message "Hello"] := rfl
  have hrun : runLines jparse true ⟨none, "", t0⟩
      [(heLine, t1), (lloLine, t2), (doneLine, t3)] =
      .finished ⟨none, "", t3⟩ [.message "Hello"] true := by
    simp only [runLines, s1, s2, s3, List.nil_append]
  have hsb : streamBody jparse true [(heLine, t1), (lloLine, t2), (doneLine, t3)] t0 tEnd =
      ([.message "Hello"], Except.ok ()) := by
    unfold streamBody
    rw [hrun]
    rfl
  rw [pipe_stream_eq v jparse true _ t0 tEnd hu hk, hsb]

/-- C1 witness: the collapsed batch at concrete clock values inside the 50 ms
window. -/
theorem C1_batching_collapses_witness :
    pipe ⟨"http://localhost:3000", "secret"⟩ sampleParse true
      (.stream [(heLine, 10), (lloLine, 20), (doneLine, 30)] 0 40) =
      ⟨"", [.message "Hello"], 1⟩ :=
  C1_batching_collapses ⟨"http://localhost:3000", "secret"⟩ sampleParse 0 10 20 30 40
    (by decide) (by decide) rfl rfl (by decide) (by decide)

/-- C2: a data line processed under the status tag, or the source tag, first
flushes any non-empty token buffer as a message event, which appears in the
emitted list strictly before the status event, respectively the citation
event: buffered tokens that arrived earlier are never reordered after it. -/
theorem C2_status_flush_order (jparse : String → Option Json) (st : ParseState)
    (ds : String) (j d : Json) (now : Nat)
    (hj : jparse ds = some j)
    (hd : j.getD "data" (.obj []) = .ok d)
    (hbuf : st.token_buffer ≠ "") :
    (st.current_event = some "status" →
      handleData jparse true st ds now =
        .next { st with current_event := none, token_buffer := "", last_flush := now }
          [.message st.token_buffer, .status d]) ∧
    (st.current_event = some "source" →
      handleData jparse true st ds now =
        .next { st with current_event := none, token_buffer := "", last_flush := now }
          [.message st.token_buffer, .citation d]) := by
  constructor
  · intro htag
    rw [handleData_eq_parsed jparse true st ds j now hj]
    unfold handleParsed
    rw [if_pos ⟨htag, rfl⟩, hd]
    unfold flush_buffer
    rw [if_pos ⟨hbuf, rfl⟩]
    rfl
  · intro htag
    rw [handleData_eq_parsed jparse true st ds j now hj]
    unfold handleParsed
    rw [if_neg (by rw [htag]; simp), if_pos ⟨htag, rfl⟩, hd]
    unfold flush_buffer
    rw [if_pos ⟨hbuf, rfl⟩]
    rfl

/-- C2 witness: under the status tag with the text Hi pending, the status
frame yields the message first and the status event second. -/
theorem C2_status_flush_order_witness :
    handleData sampleParse true ⟨some "status", "Hi", 0⟩ statusData 5 =
      .next ⟨none, "", 5⟩
        [.message "Hi", .status (.obj [("phase", .str "searching")])] :=
  (C2_status_flush_order sampleParse ⟨some "status", "Hi", 0⟩ statusData statusJson
    (.obj [("phase", .str "searching")]) 5 rfl rfl (by decide)).1 rfl

/-- C3: when the line source is exhausted without the DONE sentinel and
without a stream exception, the relay still returns the empty success value,
after appending exactly one final message event carrying the residual buffer
when that buffer is non-empty, and nothing otherwise. -/
theorem C3_exhausted_final_flush (v : Valves) (jparse : String → Option Json)
    (lines : List (String × Nat)) (t0 tEnd : Nat) (st : ParseState)
    (evs : List SinkEvent)
    (hu : v.TOOLSET_API_URL ≠ "") (hk : v.TOOLSET_API_KEY ≠ "")
    (hrun : runLines jparse true ⟨none, "", t0⟩ lines = .finished st evs false) :
    pipe v jparse true (.stream lines t0 tEnd) =
      ⟨"", evs ++ (if st.token_buffer = "" then [] else [.message st.token_buffer]), 1⟩ := by
  have hflush : (flush_buffer true tEnd st).2 =
      if st.token_buffer = "" then [] else [.message st.token_buffer] := by
    unfold flush_buffer
    by_cases hb : st.token_buffer = ""
    · rw [if_neg (by simp [hb]), if_pos hb]
    · rw [if_pos ⟨hb, rfl⟩, if_neg hb]
  have hsb : streamBody jparse true lines t0 tEnd =
      (evs ++ (if st.token_buffer = "" then [] else [.message st.token_buffer]),
        Except.ok ()) := by
    unfold streamBody
    rw [hrun]
    show (evs ++ (flush_buffer true tEnd st).2, Except.ok ()) = _
    rw [hflush]
  rw [pipe_stream_eq v jparse true lines t0 tEnd hu hk, hsb]

/-- C3 witness: a single He token frame with no sentinel still yields success
and the one residual message. -/
theorem C3_exhausted_final_flush_witness :
    pipe ⟨"http://localhost:3000", "secret"⟩ sampleParse true
      (.stream [(heLine, 10)] 0 20) = ⟨"", [.message "He"], 1⟩ :=
  C3_exhausted_final_flush ⟨"http://localhost:3000", "secret"⟩ sampleParse
    [(heLine, 10)] 0 20 ⟨none, "He", 0⟩ [] (by decide) (by decide) rfl

/-- C4: a data line whose payload fails to parse as JSON emits no event,
raises no error, clears the current event tag and leaves the buffer and flush
clock untouched; the loop then continues with the following lines exactly as
if the malformed frame were the start of the remaining stream. -/
theorem C4_malformed_skipped (jparse : String → Option Json) (em : Bool)
    (st : ParseState) (ds : String) (now t : Nat) (rest : List (String × Nat))
    (hbad : jparse ds = none) (hbadEx : jparse "\x7bbad" = none) :
    handleData jparse em st ds now = .next { st with current_event := none } [] ∧
    runLines jparse em st (("data: \x7bbad", t) :: rest) =
      runLines jparse em { st with current_event := none } rest := by
  constructor
  · unfold handleData
    rw [hbad]
  · have hstep : processLine jparse em st "data: \x7bbad" t =
        .next { st with current_event := none } [] := by
      have e : processLine jparse em st "data: \x7bbad" t =
          handleData jparse em st "\x7bbad" t := rfl
      rw [e]
      unfold handleData
      rw [hbadEx]
    simp only [runLines, hstep]
    cases hr : runLines jparse em { st with current_event := none } rest with
    | finished st2 evs2 d => rfl
    | raised e2 evs2 => rfl

/-- C4 witness: the malformed frame under an active status tag only clears
the tag, and the loop proceeds to the rest of the stream. -/
theorem C4_malformed_skipped_witness :
    handleData sampleParse true ⟨some "status", "x", 0⟩ "\x7bbad" 3 =
      .next ⟨none, "x", 0⟩ [] ∧
    runLines sampleParse true ⟨some "status", "x", 0⟩
      [("data: \x7bbad", 3), (heLine, 4)] =
      runLines sampleParse true ⟨none, "x", 0⟩ [(heLine, 4)] :=
  C4_malformed_skipped sampleParse true ⟨some "status", "x", 0⟩ "\x7bbad" 3 3
    [(heLine, 4)] rfl rfl

/-- C10: a data line whose payload is well-formed JSON with a truthy choices
field that is not a list of dictionaries, here the boolean true, raises a
TypeError that the per-frame handler does not catch: the relay aborts the
remaining stream (the later llo frame is never relayed), skips the final
flush (the buffered He is dropped, no event list entry), and returns the
generic error string rather than the success value. -/
theorem C10_illshaped_abort :
    pipe ⟨"http://localhost:3000", "secret"⟩ sampleParse true
      (.stream [(heLine, 10), ("data: \x7b\"choices\":true\x7d", 20),
        (lloLine, 30), (doneLine, 40)] 0 50) =
      ⟨"Error: TypeError", [], 1⟩ := rfl
